import Mathlib

/-
  Verification development for the Bluetooth codec test bench.

  Shallow embedding of the two variants of the tool:
  src/codec_tester.py (the CLI variant) and src/codec_tester_gui.py
  (the GUI variant).  Byte strings are modelled as List Nat with every
  element understood modulo 256 (all catalogue constants are literal
  bytes), fallible code is modelled with Except, and the stateful audio
  player and relay are modelled by explicit state passing.
-/

namespace CodecBench

/-! ## Codec catalogue (CODECS tables from both variants) -/

/-- Vendor id byte string from both sources (little-endian, 4 bytes). -/
def QUALCOMM : List Nat := [0xD0, 0x00, 0x00, 0x00]

/-- Vendor id byte string from both sources (little-endian, 4 bytes). -/
def SONY : List Nat := [0x2D, 0x01, 0x00, 0x00]

/-- Vendor id byte string from both sources (little-endian, 4 bytes). -/
def SAVITECH : List Nat := [0x3A, 0x05, 0x00, 0x00]

/-- One entry of a CODECS table: display name, media codec type byte
(0x00 SBC, 0x02 AAC, 0xFF vendor), and the codec info byte string. -/
structure CodecEntry where
  displayName : String
  mediaCodecType : Nat
  codecInfo : List Nat
deriving DecidableEq

/-- The CODECS table of src/codec_tester.py, entries in source order. -/
def cliCODECS : List (String × CodecEntry) := [
  ("SBC", ⟨"SBC", 0x00, [0xFF, 0xFF, 0x02, 0x35]⟩),
  ("AAC", ⟨"AAC", 0x02, [0xF0, 0x01, 0x04, 0x00, 0xFF, 0xFF]⟩),
  ("APTX", ⟨"aptX", 0xFF, QUALCOMM ++ [0x01, 0x00] ++ [0xFF]⟩),
  ("APTX_HD", ⟨"aptX-HD", 0xFF,
    QUALCOMM ++ [0x24, 0x00] ++ [0xFF, 0x00, 0x00, 0x00, 0x00]⟩),
  ("APTX_ADAPTIVE", ⟨"aptX-Adaptive", 0xFF,
    QUALCOMM ++ [0xAD, 0x00] ++
      [0x00, 0x00, 0x00, 0x01, 0x00, 0x00, 0x00, 0x00, 0x00, 0x00]⟩),
  ("APTX_TWS_PLUS", ⟨"aptX TWS+", 0xFF, QUALCOMM ++ [0x05, 0x00] ++ [0xFF]⟩),
  ("LDAC", ⟨"LDAC", 0xFF, SONY ++ [0xAA, 0x00] ++ [0x3C, 0x07]⟩),
  ("LHDC_V2", ⟨"LHDC V2", 0xFF, SAVITECH ++ [0x32, 0x4C] ++ [0x26, 0xF0, 0x00]⟩),
  ("LHDC_V3", ⟨"LHDC V3", 0xFF, SAVITECH ++ [0x33, 0x4C] ++ [0x3E, 0xF0, 0x00]⟩),
  ("LHDC_V4", ⟨"LHDC V4", 0xFF, SAVITECH ++ [0x34, 0x4C] ++ [0x4E, 0xF0, 0x00]⟩),
  ("LHDC_V5", ⟨"LHDC V5", 0xFF, SAVITECH ++ [0x35, 0x4C] ++ [0x5F, 0xF0, 0x00]⟩)]

/-- The CODECS table of src/codec_tester_gui.py, entries in source order.
The aptX-Adaptive tail is bytes(10), i.e. ten zero bytes, and the LHDC V3
codec id bytes are 0x48, 0x4C. -/
def guiCODECS : List (String × CodecEntry) := [
  ("SBC", ⟨"SBC", 0x00, [0xFF, 0xFF, 0x02, 0x35]⟩),
  ("AAC", ⟨"AAC", 0x02, [0xF0, 0x01, 0x04, 0x00, 0xFF, 0xFF]⟩),
  ("APTX", ⟨"aptX", 0xFF, QUALCOMM ++ [0x01, 0x00, 0xFF]⟩),
  ("APTX_HD", ⟨"aptX-HD", 0xFF,
    QUALCOMM ++ [0x24, 0x00, 0xFF, 0x00, 0x00, 0x00, 0x00]⟩),
  ("APTX_ADAPTIVE", ⟨"aptX-Adaptive", 0xFF,
    QUALCOMM ++ [0xAD, 0x00] ++ List.replicate 10 0⟩),
  ("APTX_TWS_PLUS", ⟨"aptX TWS+", 0xFF, QUALCOMM ++ [0x05, 0x00, 0xFF]⟩),
  ("LDAC", ⟨"LDAC", 0xFF, SONY ++ [0xAA, 0x00, 0x3C, 0x07]⟩),
  ("LHDC_V2", ⟨"LHDC V2", 0xFF, SAVITECH ++ [0x32, 0x4C, 0x26, 0xF0, 0x00]⟩),
  ("LHDC_V3", ⟨"LHDC V3", 0xFF, SAVITECH ++ [0x48, 0x4C, 0x3E, 0xF0, 0x00]⟩),
  ("LHDC_V4", ⟨"LHDC V4", 0xFF, SAVITECH ++ [0x34, 0x4C, 0x4E, 0xF0, 0x00]⟩),
  ("LHDC_V5", ⟨"LHDC V5", 0xFF, SAVITECH ++ [0x35, 0x4C, 0x5F, 0xF0, 0x00]⟩)]

/-- Dictionary lookup on a catalogue, CODECS[key]. -/
def lookup (cat : List (String × CodecEntry)) (k : String) : Option CodecEntry :=
  (cat.find? (fun p => p.1 == k)).map Prod.snd

/-- MANDATORY from both sources: keys always appended to a selection. -/
def MANDATORY : List String := ["SBC", "AAC"]

/-- resolve from src/codec_tester.py (the identical append loop appears in
App._get_keys of the GUI variant): start from the requested keys and append
each mandatory key that is not already present. -/
def resolve (keys : List String) : List String :=
  MANDATORY.foldl (fun result m => if m ∈ result then result else result ++ [m]) keys

/-! ## Capability matcher (vendor codec patches of both variants) -/

/-- Little-endian value of a byte list. -/
def leNat : List Nat → Nat
  | [] => 0
  | b :: rest => b + 256 * leNat rest

/-- The 4-byte little-endian vendor id field leading a vendor codec info
byte string. -/
def vendorIdOf (info : List Nat) : Nat := leNat (info.take 4)

/-- The 2-byte little-endian vendor codec id field following the vendor id
in a vendor codec info byte string. -/
def codecIdOf (info : List Nat) : Nat := leNat ((info.drop 4).take 2)

/-- The patched check from src/codec_tester.py, installed as
VendorMediaCodecInformation.check_configuration: a config carrying no
vendor_id attribute passes; a vendor_id mismatch or a codec_id mismatch
raises ValueError; otherwise the config passes, all trailing parameter
bytes ignored. -/
def check_configuration (selfVid selfCid : Nat) (cfg : Option (Nat × Nat)) :
    Except String Unit :=
  match cfg with
  | none => Except.ok ()
  | some (vid, cid) =>
      if vid ≠ selfVid then Except.error "vendor_id mismatch"
      else if cid ≠ selfCid then Except.error "codec_id mismatch"
      else Except.ok ()

/-- accept for the CLI variant on a vendor-class endpoint: the proposed
bytes parse into a 4-byte little-endian vendor id and a 2-byte little-endian
codec id, and the patched check must not raise. -/
def acceptCli (adv : CodecEntry) (proposed : List Nat) : Bool :=
  match check_configuration (vendorIdOf adv.codecInfo) (codecIdOf adv.codecInfo)
      (some (vendorIdOf proposed, codecIdOf proposed)) with
  | Except.ok _ => true
  | Except.error _ => false

/-- The patched check from src/codec_tester_gui.py, installed as
MediaCodecCapabilities.check_configuration: any configuration for a
vendor-class (0xFF) endpoint passes unconditionally; other classes defer to
the original strict check, modelled by the strictOk parameter. -/
def permissive_check (mediaCodecType : Nat) (strictOk : Bool) : Bool :=
  if mediaCodecType = 0xFF then true else strictOk

/-- The aptX entry of the GUI catalogue, used as a concrete vendor-class
advertised descriptor. -/
def aptxGuiEntry : CodecEntry := ⟨"aptX", 0xFF, QUALCOMM ++ [0x01, 0x00, 0xFF]⟩

/-! ## Audio player and media relay (GUI variant) -/

/-- State of the AudioPlayer: the active flag, whether a subprocess handle
is held (self underscore proc is not None), whether that process is alive
(poll() is None), and whether the dump file handle is open. -/
structure PlayerState where
  active : Bool
  hasProc : Bool
  procAlive : Bool
  dumpOpen : Bool
deriving DecidableEq

/-- The player state right after construction. -/
def initPlayer : PlayerState := ⟨false, false, false, false⟩

/-- AudioPlayer.start: a missing backend is a no-op, a codec key other than
SBC is a no-op; otherwise the playback process is spawned, the active flag
set, and the dump file opened (spawnOk models the try body succeeding; on
an exception the state is unchanged). -/
def playerStart (backend spawnOk : Bool) (codecKey : String) (st : PlayerState) :
    PlayerState :=
  if backend = false then st
  else if codecKey ≠ "SBC" then st
  else if spawnOk then ⟨true, true, true, true⟩
  else st

/-- What one call to AudioPlayer.write did to each sink. -/
structure WriteEffects where
  playbackWritten : Bool
  backupAppended : Bool
deriving DecidableEq

/-- AudioPlayer.write: guarded by the active flag and a live process; the
playback pipe write comes first and the dump file append second inside one
try block, and any exception logs a pipe error and clears the active flag.
playbackOk and backupOk model whether the respective sink write raises. -/
def playerWrite (playbackOk backupOk : Bool) (st : PlayerState) :
    PlayerState × WriteEffects :=
  if st.active && st.hasProc && st.procAlive then
    if playbackOk then
      if st.dumpOpen then
        if backupOk then (st, ⟨true, true⟩)
        else ({ st with active := false }, ⟨true, false⟩)
      else (st, ⟨true, false⟩)
    else ({ st with active := false }, ⟨false, false⟩)
  else (st, ⟨false, false⟩)

/-- AudioPlayer.stop: clear the active flag; when a process handle is held,
close its stdin and terminate it (best effort) and drop the handle; when
the dump file is open, close it and drop the handle. -/
def playerStop (st : PlayerState) : PlayerState :=
  let st1 := { st with active := false }
  let st2 := if st1.hasProc then { st1 with hasProc := false, procAlive := false }
             else st1
  if st2.dumpOpen then { st2 with dumpOpen := false } else st2

/-- State shared by the rtp handlers and the bitrate sampler: the cumulative
byte counter bytes_recv and the audio player. -/
structure RelayState where
  bytesRecv : Nat
  player : PlayerState
deriving DecidableEq

/-- The per-packet handler made inside the open handler of the GUI variant
for an endpoint with codec key k: for an SBC payload longer than one byte,
strip the header byte and write the rest to the player; in every case add
the full payload length to the byte counter. -/
def onRtp (k : String) (payload : List Nat) (playbackOk backupOk : Bool)
    (rs : RelayState) : RelayState × WriteEffects :=
  let pe :=
    if k = "SBC" ∧ 1 < payload.length then
      playerWrite playbackOk backupOk rs.player
    else (rs.player, ⟨false, false⟩)
  (⟨rs.bytesRecv + payload.length, pe.1⟩, pe.2)

/-- The open handler of the GUI variant for an endpoint with codec key k:
only when the audio checkbox was enabled, start the player and attach the
rtp handler; the Bool result records whether the handler got attached. -/
def onOpen (audioEnabled backend spawnOk : Bool) (k : String) (st : PlayerState) :
    PlayerState × Bool :=
  if audioEnabled then (playerStart backend spawnOk k st, true) else (st, false)

/-- Delivery of one media packet to an opened endpoint: the rtp handler runs
only if it was attached at open time, otherwise the packet is dropped
without touching the relay state. -/
def deliverPacket (handlerAttached : Bool) (k : String) (payload : List Nat)
    (playbackOk backupOk : Bool) (rs : RelayState) : RelayState :=
  if handlerAttached then (onRtp k payload playbackOk backupOk rs).1 else rs

/-- An event visible to the presentation layer, as put on the event queue. -/
inductive Event where
  | streamClosed (codec : String)
deriving DecidableEq

/-- The close handler of the GUI variant for an endpoint with display name
n: emit STREAM_CLOSED and stop the audio player, whatever codec the closing
endpoint carries. -/
def onCloseHandler (n : String) (st : PlayerState) : Event × PlayerState :=
  (Event.streamClosed n, playerStop st)

/-! ## Connection handler, registration loop, bitrate sampler -/

/-- The endpoint registration loop inside the connection handler of both
variants: each key is registered with the external stack in order; a
registration failure is caught, logged, and the key skipped.  regOk models
which registrations succeed; the result is (registered keys, skipped keys). -/
def registerLoop (regOk : String → Bool) (keys : List String) :
    List String × List String :=
  keys.foldl
    (fun acc k => if regOk k then (acc.1 ++ [k], acc.2) else (acc.1, acc.2 ++ [k]))
    ([], [])

/-- Outcome of one run of the connection handler body. -/
structure ConnectionOutcome where
  registered : List String
  skipped : List String
  connectedEmitted : Bool
  endedFatal : Bool
deriving DecidableEq

/-- The connection handler body of the GUI variant (on_avdtp past the
latch): run the registration loop, then emit CONNECTED unconditionally; no
path of the handler ends the session. -/
def on_avdtp (regOk : String → Bool) (keys : List String) : ConnectionOutcome :=
  ⟨(registerLoop regOk keys).1, (registerLoop regOk keys).2, true, false⟩

/-- One step of the fire-once latch guarding the connection handler: the
state is the fired flag paired with how many times the handler body ran. -/
def handlerStep (st : Bool × Nat) : Bool × Nat :=
  if st.1 then st else (true, st.2 + 1)

/-- Deliver n connection notifications in succession to the latched
handler, starting from the fresh state. -/
def runHandler : Nat → Bool × Nat
  | 0 => (false, 0)
  | Nat.succ n => handlerStep (runHandler n)

/-- One iteration of bitrate_loop: read the counter, subtract the previous
reading, store the new reading as prev, and emit a BITRATE sample only for
a nonzero delta, with kbps = delta * 8 / 1000 modelled as an exact
rational. -/
def bitrateStep (bytesRecv prev : Nat) : Nat × Option ℚ :=
  (bytesRecv,
    if (bytesRecv : Int) - (prev : Int) = 0 then none
    else some ((((bytesRecv : Int) - (prev : Int)) : ℚ) * 8 / 1000))

/-! ## Codec info parser (parse_codec_info of the GUI variant) -/

/-- The parsed fields dictionary: each key that parse_codec_info may set. -/
structure ParsedFields where
  sample_rate : Option Nat
  bit_depth : Option Nat
  max_kbps : Option Nat
deriving DecidableEq

/-- The empty parsed fields dictionary. -/
def emptyFields : ParsedFields := ⟨none, none, none⟩

/-- Indexing b[i] on a byte list: in range yields the byte, out of range is
an IndexError. -/
def byteAt (b : List Nat) (i : Nat) : Except String Nat :=
  if h : i < b.length then Except.ok (b.get ⟨i, h⟩) else Except.error "IndexError"

/-- Sample-rate mask table for SBC, from parse_codec_info. -/
def sbcRates : List (Nat × Nat) :=
  [(0x80, 16000), (0x40, 32000), (0x20, 44100), (0x10, 48000)]

/-- Sample-rate mask table for AAC, from parse_codec_info. -/
def aacRates : List (Nat × Nat) :=
  [(0x800, 8000), (0x400, 11025), (0x200, 12000), (0x100, 16000),
   (0x080, 22050), (0x040, 24000), (0x020, 32000), (0x010, 44100),
   (0x008, 48000), (0x002, 88200), (0x001, 96000)]

/-- Sample-rate mask table for LDAC, from parse_codec_info. -/
def ldacRates : List (Nat × Nat) :=
  [(0x20, 44100), (0x10, 48000), (0x04, 88200), (0x02, 96000)]

/-- Sample-rate mask table for the LHDC family, from parse_codec_info. -/
def lhdcRates : List (Nat × Nat) :=
  [(0x08, 192000), (0x04, 96000), (0x02, 48000), (0x01, 44100)]

/-- Sample-rate mask table for the aptX family, from parse_codec_info. -/
def aptxRates : List (Nat × Nat) :=
  [(0x80, 44100), (0x40, 48000)]

/-- The first rate whose mask intersects the given bits, mirroring the
for-and-break loops of parse_codec_info; none when no mask matches. -/
def firstRate : List (Nat × Nat) → Nat → Option Nat
  | [], _ => none
  | (mask, hz) :: rest, bits =>
      if bits &&& mask ≠ 0 then some hz else firstRate rest bits

/-- Whether the character list contains the substring HD, mirroring the
Python membership test on the codec key. -/
def hasHD : List Char → Bool
  | [] => false
  | c :: rest => (c == 'H' && rest.head? == some 'D') || hasHD rest

/-- parse_codec_info from src/codec_tester_gui.py: per-codec bit-field
rules guarded by length checks, every byte access modelled as fallible; the
final branch is the empty dictionary.  The source wraps the body in a
try-except returning the dictionary built so far; the theorems below show
the error path is never taken, so the except clause is unreachable and is
not given a separate model. -/
def parse_codec_info (key : String) (b : List Nat) : Except String ParsedFields :=
  if key = "SBC" ∧ 4 ≤ b.length then
    match byteAt b 0 with
    | Except.error e => Except.error e
    | Except.ok b0 => Except.ok ⟨firstRate sbcRates b0, some 16, some 320⟩
  else if key = "AAC" ∧ 2 ≤ b.length then
    match byteAt b 0, byteAt b 1 with
    | Except.ok b0, Except.ok b1 =>
        Except.ok ⟨firstRate aacRates (((b0 &&& 0x0F) <<< 8) ||| b1),
          some 16, some 320⟩
    | Except.error e, _ => Except.error e
    | _, Except.error e => Except.error e
  else if key = "LDAC" ∧ 8 ≤ b.length then
    match byteAt b 6, byteAt b 7 with
    | Except.ok b6, Except.ok b7 =>
        Except.ok ⟨firstRate ldacRates b6, some 24,
          some (if b7 &&& 0x07 = 0 then 990 else if b7 &&& 0x07 = 1 then 660
                else if b7 &&& 0x07 = 2 then 330 else 990)⟩
    | Except.error e, _ => Except.error e
    | _, Except.error e => Except.error e
  else if key.startsWith "LHDC" ∧ 7 ≤ b.length then
    match byteAt b 6 with
    | Except.error e => Except.error e
    | Except.ok b6 => Except.ok ⟨firstRate lhdcRates b6, some 24, some 900⟩
  else if key.startsWith "APTX" ∧ 7 ≤ b.length then
    match byteAt b 6 with
    | Except.error e => Except.error e
    | Except.ok b6 =>
        Except.ok ⟨firstRate aptxRates b6,
          some (if hasHD key.toList then 24 else 16),
          some (if hasHD key.toList then 576 else 352)⟩
  else Except.ok emptyFields

/-! ## Named catalogue payloads used by the catalogue-comparison claims -/

/-- The LHDC V3 codec info bytes of the CLI catalogue. -/
def cliLhdc3Info : List Nat := SAVITECH ++ [0x33, 0x4C] ++ [0x3E, 0xF0, 0x00]

/-- The LHDC V3 codec info bytes of the GUI catalogue. -/
def guiLhdc3Info : List Nat := SAVITECH ++ [0x48, 0x4C, 0x3E, 0xF0, 0x00]

/-- The aptX-Adaptive codec info bytes of the CLI catalogue. -/
def cliAdaptiveInfo : List Nat :=
  QUALCOMM ++ [0xAD, 0x00] ++
    [0x00, 0x00, 0x00, 0x01, 0x00, 0x00, 0x00, 0x00, 0x00, 0x00]

/-- The aptX-Adaptive codec info bytes of the GUI catalogue. -/
def guiAdaptiveInfo : List Nat := QUALCOMM ++ [0xAD, 0x00] ++ List.replicate 10 0

/-! ## Theorems settling the claims -/

/-- Any foldl run of the registration loop splits the keys into the
successfully registered ones and the skipped ones, each in order. -/
lemma registerLoop_go (regOk : String → Bool) (keys acc1 acc2 : List String) :
    keys.foldl
      (fun acc k => if regOk k then (acc.1 ++ [k], acc.2) else (acc.1, acc.2 ++ [k]))
      (acc1, acc2)
    = (acc1 ++ keys.filter regOk, acc2 ++ keys.filter (fun k => !regOk k)) := by
  induction keys generalizing acc1 acc2 with
  | nil => simp
  | cons k ks ih =>
    by_cases h : regOk k = true
    · simp [List.foldl_cons, List.filter_cons, h, ih]
    · simp [List.foldl_cons, List.filter_cons, h, ih]

/-- An in-range byte access succeeds with the indexed element. -/
lemma byteAt_isOk (b : List Nat) (i : Nat) (h : i < b.length) :
    byteAt b i = Except.ok (b.get ⟨i, h⟩) := by
  unfold byteAt
  rw [dif_pos h]

/-- C1 counterexample: the GUI variant installs permissive checking on every
vendor-class (0xFF) endpoint, so a proposed configuration whose vendor id
field differs from the advertised aptX descriptor is still accepted, against
the claim that accept returns false when either id differs. -/
theorem C1_counterexample :
    lookup guiCODECS "APTX" = some aptxGuiEntry ∧
    vendorIdOf [0, 0, 0, 0, 0, 0] ≠ vendorIdOf aptxGuiEntry.codecInfo ∧
    permissive_check aptxGuiEntry.mediaCodecType false = true := by decide

/-- C1 (amended): the CLI variant accepts a proposed vendor configuration
exactly when its leading 4-byte vendor id field and 2-byte vendor codec id
field match the advertised descriptor, all trailing parameter bytes ignored;
the GUI variant accepts every proposed configuration for a vendor-class
endpoint unconditionally, including when either id differs. -/
theorem C1_vendor_accept_amended :
    (∀ (adv : CodecEntry) (proposed : List Nat),
        acceptCli adv proposed = true ↔
          vendorIdOf proposed = vendorIdOf adv.codecInfo ∧
          codecIdOf proposed = codecIdOf adv.codecInfo) ∧
    (∀ (mct : Nat) (strictOk : Bool), mct = 0xFF →
        permissive_check mct strictOk = true) := by
  constructor
  · intro adv proposed
    unfold acceptCli check_configuration
    by_cases h1 : vendorIdOf proposed = vendorIdOf adv.codecInfo
    · by_cases h2 : codecIdOf proposed = codecIdOf adv.codecInfo
      · simp [h1, h2]
      · simp [h1, h2]
    · simp [h1]
  · intro mct strictOk h
    simp [permissive_check, h]

/-- C1 witness: the amended theorem applied at the aptX descriptor with a
proposed configuration sharing both ids but a different parameter tail, and
at the vendor media codec type with a failing strict check. -/
theorem C1_vendor_accept_amended_witness :
    acceptCli aptxGuiEntry (QUALCOMM ++ [0x01, 0x00, 0xAB, 0xCD]) = true ∧
    permissive_check 0xFF false = true := by
  exact ⟨(C1_vendor_accept_amended.1 aptxGuiEntry _).mpr (by decide),
         C1_vendor_accept_amended.2 0xFF false rfl⟩

/-- C2 counterexample: with live playback disabled the open handler attaches
no rtp handler at all, so a delivered 3-byte LDAC packet leaves the byte
counter at 0, against the claim that the counter grows by the payload length
regardless of whether live playback is enabled. -/
theorem C2_counterexample :
    (onOpen false true true "LDAC" initPlayer).2 = false ∧
    deliverPacket (onOpen false true true "LDAC" initPlayer).2 "LDAC" [1, 2, 3]
      true true ⟨0, initPlayer⟩ = ⟨0, initPlayer⟩ := by decide

/-- C2 (amended): whenever the rtp handler runs, the byte counter grows by
the payload length regardless of codec key and of sink outcomes; starting
the player for a non-SBC codec key is a no-op; and with live playback
disabled the open handler attaches no rtp handler, so packets are not
counted at all. -/
theorem C2_counter_amended :
    (∀ (k : String) (payload : List Nat) (playbackOk backupOk : Bool)
        (rs : RelayState),
        (onRtp k payload playbackOk backupOk rs).1.bytesRecv =
          rs.bytesRecv + payload.length) ∧
    (∀ (backend spawnOk : Bool) (k : String) (st : PlayerState),
        k ≠ "SBC" → playerStart backend spawnOk k st = st) ∧
    (∀ (backend spawnOk : Bool) (k : String) (st : PlayerState),
        (onOpen false backend spawnOk k st).2 = false) := by
  refine ⟨?_, ?_, ?_⟩
  · intro k payload playbackOk backupOk rs
    rfl
  · intro backend spawnOk k st hk
    unfold playerStart
    cases backend with
    | false => rfl
    | true => simp [hk]
  · intro backend spawnOk k st
    rfl

/-- C2 witness: the amended theorem applied to an LDAC packet of three
bytes, to a player start with the LDAC key, and to an open with playback
disabled. -/
theorem C2_counter_amended_witness :
    (onRtp "LDAC" [1, 2, 3] true true ⟨0, initPlayer⟩).1.bytesRecv = 3 ∧
    playerStart true true "LDAC" initPlayer = initPlayer ∧
    (onOpen false true true "LDAC" initPlayer).2 = false := by
  exact ⟨C2_counter_amended.1 "LDAC" [1, 2, 3] true true ⟨0, initPlayer⟩,
         C2_counter_amended.2.1 true true "LDAC" initPlayer (by decide),
         C2_counter_amended.2.2 true true "LDAC" initPlayer⟩

/-- C4: at the failing input (active player, live process, open dump file)
a playback pipe write that raises makes the shared try block skip the dump
file append and clears the active flag, and a dump file append that raises
clears the active flag and thereby blocks all later playback writes; the
packet is still counted.  The two sinks are therefore not
write-independent, against the claim and against the stated purpose of the
dump file as a failsafe. -/
theorem C4_backup_skipped_on_playback_failure :
    (playerWrite false true ⟨true, true, true, true⟩).2.backupAppended = false ∧
    (playerWrite false true ⟨true, true, true, true⟩).1.active = false ∧
    (playerWrite true false ⟨true, true, true, true⟩).1.active = false ∧
    (playerWrite false true
        (playerWrite true false ⟨true, true, true, true⟩).1).2.playbackWritten
      = false ∧
    (onRtp "SBC" [9, 1, 2] false true ⟨0, ⟨true, true, true, true⟩⟩).1.bytesRecv
      = 3 := by decide

/-- C5 counterexample: when every registration fails the connection handler
still emits CONNECTED and never transitions the session to Ended with a
fatal error, against the claim that zero successful registrations end the
session. -/
theorem C5_counterexample :
    (on_avdtp (fun _ => false) ["SBC", "AAC"]).registered = [] ∧
    (on_avdtp (fun _ => false) ["SBC", "AAC"]).endedFatal = false ∧
    (on_avdtp (fun _ => false) ["SBC", "AAC"]).connectedEmitted = true := by decide

/-- C5 (amended): a registration failure for an individual descriptor is
non-fatal: the failed descriptor is skipped and logged and the remaining
descriptors are registered in order; the handler then proceeds (CONNECTED
emitted) whatever the number of successful registrations, with no fatal
transition to Ended even when zero endpoints register. -/
theorem C5_registration_amended (regOk : String → Bool) (keys : List String) :
    (on_avdtp regOk keys).registered = keys.filter regOk ∧
    (on_avdtp regOk keys).skipped = keys.filter (fun k => !regOk k) ∧
    (on_avdtp regOk keys).connectedEmitted = true ∧
    (on_avdtp regOk keys).endedFatal = false := by
  have h := registerLoop_go regOk keys [] []
  unfold on_avdtp registerLoop
  rw [h]
  simp

/-- C3: resolve keeps the requested keys as a prefix in their original
relative order and appends exactly the mandatory keys not already present,
in the fixed MANDATORY order; consequently SBC and AAC are always members
of the result, and resolving just APTX_HD yields APTX_HD, SBC, AAC. -/
theorem C3_resolve_mandatory (keys : List String) :
    resolve keys = keys ++ MANDATORY.filter (fun m => decide (m ∉ keys)) ∧
    "SBC" ∈ resolve keys ∧ "AAC" ∈ resolve keys ∧
    resolve ["APTX_HD"] = ["APTX_HD", "SBC", "AAC"] := by
  have hne : ¬ ("AAC" = "SBC") := by decide
  have hform : resolve keys = keys ++ MANDATORY.filter (fun m => decide (m ∉ keys)) := by
    unfold resolve MANDATORY
    by_cases h1 : "SBC" ∈ keys <;> by_cases h2 : "AAC" ∈ keys <;>
      simp [h1, h2, hne, List.filter_cons]
  refine ⟨hform, ?_, ?_, by decide⟩
  · rw [hform]
    by_cases h1 : "SBC" ∈ keys
    · exact List.mem_append.mpr (Or.inl h1)
    · refine List.mem_append.mpr (Or.inr ?_)
      rw [List.mem_filter]
      exact ⟨by decide, by simp [h1]⟩
  · rw [hform]
    by_cases h2 : "AAC" ∈ keys
    · exact List.mem_append.mpr (Or.inl h2)
    · refine List.mem_append.mpr (Or.inr ?_)
      rw [List.mem_filter]
      exact ⟨by decide, by simp [h2]⟩

/-- C6: one sampler iteration stores the counter reading as the new prev,
emits nothing exactly when the delta is zero, and for a positive delta
emits kbps equal to delta times 8 over 1000. -/
theorem C6_bitrate_step (now prev : Nat) (h : prev ≤ now) :
    (bitrateStep now prev).1 = now ∧
    ((bitrateStep now prev).2 = none ↔ now = prev) ∧
    (prev < now →
      (bitrateStep now prev).2 = some (((now - prev : Nat) : ℚ) * 8 / 1000)) := by
  unfold bitrateStep
  refine ⟨rfl, ?_, ?_⟩
  · by_cases hd : (now : Int) - (prev : Int) = 0
    · have hnp : now = prev := by omega
      simp [hd, hnp]
    · have hnp : ¬ (now = prev) := by omega
      simp [hd, hnp]
  · intro hlt
    have hd : (now : Int) - (prev : Int) ≠ 0 := by omega
    simp only [if_neg hd]
    congr 1
    have hcast : ((now - prev : Nat) : ℚ) = (now : ℚ) - (prev : ℚ) := by
      push_cast [Nat.cast_sub h]
      ring
    rw [hcast]
    push_cast
    ring

/-- C6 witness: the theorem applied at a reading of 1000 bytes over a prev
of 0 (sample of 8 kbps) and at equal readings (no sample). -/
theorem C6_bitrate_step_witness :
    (bitrateStep 1000 0).1 = 1000 ∧ (bitrateStep 1000 0).2 = some 8 ∧
    (bitrateStep 250 250).2 = none := by
  have h1 := C6_bitrate_step 1000 0 (by norm_num)
  have h2 := C6_bitrate_step 250 250 (le_refl 250)
  refine ⟨h1.1, ?_, h2.2.1.mpr rfl⟩
  rw [h1.2.2 (by norm_num)]
  norm_num

/-- C7: over any nonempty run of connection notifications the latched
handler runs its registration body exactly once, and once the latch is set
every further notification is a no-op on the handler state. -/
theorem C7_fire_once (n : Nat) (h : 1 ≤ n) :
    runHandler n = (true, 1) ∧
    ∀ st : Bool × Nat, st.1 = true → handlerStep st = st := by
  constructor
  · induction n with
    | zero => omega
    | succ m ih =>
      cases Nat.eq_zero_or_pos m with
      | inl h0 => subst h0; rfl
      | inr hpos =>
        have hm := ih hpos
        show handlerStep (runHandler m) = (true, 1)
        rw [hm]
        rfl
  · intro st hst
    unfold handlerStep
    simp [hst]

/-- C7 witness: two notifications in succession still run the body once. -/
theorem C7_fire_once_witness : runHandler 2 = (true, 1) :=
  (C7_fire_once 2 (by norm_num)).1

/-- C8: the parser is total: for every codec key and every payload,
including empty and truncated ones, no byte access goes out of range and
the result is returned rather than an error; payloads of at most one byte
fall through every guarded branch and yield the empty parsed fields. -/
theorem C8_parse_total (key : String) (b : List Nat) :
    (∃ r, parse_codec_info key b = Except.ok r) ∧
    (b.length ≤ 1 → parse_codec_info key b = Except.ok emptyFields) := by
  constructor
  · unfold parse_codec_info
    split_ifs with h1 h2 h3 h4 h5 h6
    · have hlen := h1.2
      rw [byteAt_isOk b 0 (by omega)]
      exact ⟨_, rfl⟩
    · have hlen := h2.2
      rw [byteAt_isOk b 0 (by omega), byteAt_isOk b 1 (by omega)]
      exact ⟨_, rfl⟩
    · have hlen := h3.2
      rw [byteAt_isOk b 6 (by omega), byteAt_isOk b 7 (by omega)]
      exact ⟨_, rfl⟩
    · have hlen := h4.2
      rw [byteAt_isOk b 6 (by omega)]
      exact ⟨_, rfl⟩
    · have hlen := h5.2
      rw [byteAt_isOk b 6 (by omega)]
      exact ⟨_, rfl⟩
    · have hlen := h5.2
      rw [byteAt_isOk b 6 (by omega)]
      exact ⟨_, rfl⟩
    · exact ⟨_, rfl⟩
  · intro hb
    unfold parse_codec_info
    split_ifs with h1 h2 h3 h4 h5 h6
    · exact absurd h1.2 (by omega)
    · exact absurd h2.2 (by omega)
    · exact absurd h3.2 (by omega)
    · exact absurd h4.2 (by omega)
    · exact absurd h5.2 (by omega)
    · exact absurd h5.2 (by omega)
    · rfl

/-- C8 witness: the theorem applied to a one-byte AAC payload, below the
two-byte guard of the AAC branch. -/
theorem C8_parse_total_witness :
    parse_codec_info "AAC" [5] = Except.ok emptyFields :=
  (C8_parse_total "AAC" [5]).2 (by norm_num)

/-- C9 counterexample: the aptX-Adaptive key, which is not LHDC V3, maps to
different entries in the two catalogues, against the claim that the
catalogues agree on every key except LHDC V3. -/
theorem C9_counterexample :
    lookup cliCODECS "APTX_ADAPTIVE" ≠ lookup guiCODECS "APTX_ADAPTIVE" ∧
    "APTX_ADAPTIVE" ≠ "LHDC_V3" := by decide

/-- C9 (amended): the two catalogues list the same keys in the same order
and agree on every entry except LHDC V3 and aptX-Adaptive.  For LHDC V3
the entries share name and type and the payloads agree outside bytes 4 and
5 while the 2-byte vendor codec id field differs.  For aptX-Adaptive the
entries share name, type and vendor codec id field, and the payloads differ
exactly at byte index 9, one byte of the parameter tail. -/
theorem C9_catalogue_amended :
    cliCODECS.map Prod.fst = guiCODECS.map Prod.fst ∧
    ((cliCODECS.map Prod.fst).all fun k =>
        k == "LHDC_V3" || k == "APTX_ADAPTIVE" ||
        decide (lookup cliCODECS k = lookup guiCODECS k)) = true ∧
    lookup cliCODECS "LHDC_V3" = some ⟨"LHDC V3", 0xFF, cliLhdc3Info⟩ ∧
    lookup guiCODECS "LHDC_V3" = some ⟨"LHDC V3", 0xFF, guiLhdc3Info⟩ ∧
    cliLhdc3Info.take 4 = guiLhdc3Info.take 4 ∧
    cliLhdc3Info.drop 6 = guiLhdc3Info.drop 6 ∧
    (cliLhdc3Info.drop 4).take 2 ≠ (guiLhdc3Info.drop 4).take 2 ∧
    lookup cliCODECS "APTX_ADAPTIVE" = some ⟨"aptX-Adaptive", 0xFF, cliAdaptiveInfo⟩ ∧
    lookup guiCODECS "APTX_ADAPTIVE" = some ⟨"aptX-Adaptive", 0xFF, guiAdaptiveInfo⟩ ∧
    (cliAdaptiveInfo.drop 4).take 2 = (guiAdaptiveInfo.drop 4).take 2 ∧
    cliAdaptiveInfo.take 9 = guiAdaptiveInfo.take 9 ∧
    cliAdaptiveInfo.drop 10 = guiAdaptiveInfo.drop 10 ∧
    cliAdaptiveInfo.get? 9 ≠ guiAdaptiveInfo.get? 9 := by decide

/-- C10: whichever endpoint closes, and whatever its codec, the close
handler emits STREAM_CLOSED for it and stops the audio player, leaving the
active flag cleared, the process handle dropped and the dump file handle
closed; stopping is idempotent, so invoking it repeatedly is safe. -/
theorem C10_close_stops_player (n : String) (st : PlayerState) :
    (onCloseHandler n st).1 = Event.streamClosed n ∧
    (onCloseHandler n st).2.active = false ∧
    (onCloseHandler n st).2.hasProc = false ∧
    (onCloseHandler n st).2.dumpOpen = false ∧
    playerStop (playerStop st) = playerStop st := by
  rcases st with ⟨a, p, pa, d⟩
  cases a <;> cases p <;> cases pa <;> cases d <;>
    exact ⟨rfl, rfl, rfl, rfl, rfl⟩

end CodecBench
